import Mathlib

/-!
# Verification of `setup.py` (pyqubo build driver)

A shallow embedding of the CMake-based build driver in `setup.py`:
the platform map `PLAT_TO_CMAKE`, the `CMakeBuild.build_extension`
argument assembly (configure-phase `cmake_args` and build-phase
`build_args`), the `CMakeExtension` constructor, and the
`GoogleTestCommand` test orchestrator.

Python strings are modelled as Lean `String`s (lists of characters where
inductive reasoning is needed); environment lookups, the host platform,
the compiler type and similar ambient inputs are gathered in an explicit
environment record.  Python exceptions (`KeyError` from a dict lookup,
`NameError` from an undefined variable) are modelled with `Except`.
-/

namespace Setup

/-- Models Python `pre in s` ⟶ here `str.startswith(pre)`:
`pre.data.isPrefixOf s.data`. -/
def strStartsWith (s pre : String) : Bool :=
  pre.data.isPrefixOf s.data

/-- Substring containment on character lists: `needle` occurs contiguously
in the list.  Models Python `needle in hay` for strings. -/
def containsSub (needle : List Char) : List Char → Bool
  | [] => needle.isEmpty
  | c :: cs => needle.isPrefixOf (c :: cs) || containsSub needle cs

/-- Models Python `needle in hay` for strings. -/
def strContains (hay needle : String) : Bool :=
  containsSub needle.data hay.data

/-- Models Python `s.endswith(sep)` for a one-character separator
(`os.path.sep` is a single character): the last character equals `sep`. -/
def strEndsWithChar (s : String) (sep : Char) : Bool :=
  s.data.getLast? = some sep

/-- Lines 36–37 of `setup.py`:
`if not extdir.endswith(os.path.sep): extdir += os.path.sep`. -/
def ensureSep (sep : Char) (s : String) : String :=
  if strEndsWithChar s sep then s else s.push sep

/-- Lines 16–21 of `setup.py`: the `PLAT_TO_CMAKE` dict mapping distutils
Windows platform specifiers to CMake `-A` arguments.  A missing key is a
Python `KeyError`, modelled as `none`. -/
def PLAT_TO_CMAKE : String → Option String
  | "win32" => some "Win32"
  | "win-amd64" => some "x64"
  | "win-arm32" => some "ARM"
  | "win-arm64" => some "ARM64"
  | _ => none

/-- Python exceptions raised while assembling the CMake argument lists. -/
inductive BuildError where
  /-- `KeyError`: a dict was indexed with a missing key. -/
  | keyError (key : String)
  /-- `NameError` / `UnboundLocalError`: an undefined variable was read. -/
  | nameError (name : String)
  deriving DecidableEq, Repr

/-- The ambient inputs of one `CMakeBuild.build_extension` call: compiler
type, environment variables, host platform, command options. -/
structure BuildEnv where
  /-- `self.compiler.compiler_type` -/
  compilerType : String
  /-- `os.environ.get("CMAKE_GENERATOR", "")` -/
  cmakeGenerator : String
  /-- `self.plat_name` -/
  platName : String
  /-- `self.debug` (truthiness) -/
  debug : Bool
  /-- `sys.platform` -/
  sysPlatform : String
  /-- `os.getenv('USE_OMP', ...)`: `none` when the variable is unset -/
  useOmpEnv : Option String
  /-- `os.environ.get("ARCHFLAGS", "")` -/
  archflags : String
  /-- whether `"CMAKE_BUILD_PARALLEL_LEVEL" in os.environ` -/
  parallelLevelSet : Bool
  /-- `self.parallel`: `none` for absent/None, `some n` for an int
  (truthy iff nonzero) -/
  parallel : Option Nat
  /-- whether `import ninja` succeeds -/
  ninjaImportable : Bool
  /-- `os.path.abspath(os.path.dirname(self.get_ext_fullpath(ext.name)))` -/
  extdirRaw : String
  /-- `os.path.sep` -/
  pathSep : Char
  /-- `sys.executable` -/
  pyExecutable : String
  /-- `self.distribution.get_version()` -/
  versionInfo : String
  deriving Repr

/-- Line 33 + lines 36–37: the normalized extension output directory. -/
def extdir (env : BuildEnv) : String :=
  ensureSep env.pathSep env.extdirRaw

/-- Line 39: `cfg = "Debug" if self.debug else "Release"`. -/
def cfg (env : BuildEnv) : String :=
  if env.debug then "Debug" else "Release"

/-- Models Python `str.upper()` on ASCII configuration names. -/
def strUpper (s : String) : String :=
  String.mk (s.data.map Char.toUpper)

/-- Lines 48–53: the initial `cmake_args` list. -/
def baseCmakeArgs (env : BuildEnv) : List String :=
  [ "-DCMAKE_LIBRARY_OUTPUT_DIRECTORY=" ++ extdir env
  , "-DPYTHON_EXECUTABLE=" ++ env.pyExecutable
  , "-DPYQUBO_VERSION_INFO=" ++ env.versionInfo
  , "-DCMAKE_BUILD_TYPE=" ++ cfg env ]

/-- Lines 56–89: the compiler-type branch.  Off MSVC, optionally select
the Ninja generator.  On MSVC: classify the generator
(`single_config` iff its name contains `"NMake"` or `"Ninja"`,
`contains_arch` iff it contains `"ARM"` or `"Win64"`); when neither
holds, look up `PLAT_TO_CMAKE[self.plat_name]` (a `KeyError` escapes for
an unknown platform) and append `"-A", arch`; when not single-config,
append the per-configuration output-directory define and
`"--config", cfg`. -/
def compilerStep (env : BuildEnv) (cmake_args build_args : List String) :
    Except BuildError (List String × List String) :=
  if env.compilerType ≠ "msvc" then
    .ok ( if env.cmakeGenerator = "" ∧ env.ninjaImportable then
            cmake_args ++ ["-GNinja"]
          else cmake_args
        , build_args )
  else
    let single_config :=
      strContains env.cmakeGenerator "NMake" || strContains env.cmakeGenerator "Ninja"
    let contains_arch :=
      strContains env.cmakeGenerator "ARM" || strContains env.cmakeGenerator "Win64"
    ((if !single_config && !contains_arch then
        match PLAT_TO_CMAKE env.platName with
        | some arch => .ok (cmake_args ++ ["-A", arch])
        | none => .error (.keyError env.platName)
      else .ok cmake_args : Except BuildError (List String))).bind fun ca =>
      if !single_config then
        .ok ( ca ++ ["-DCMAKE_LIBRARY_OUTPUT_DIRECTORY_" ++ strUpper (cfg env)
                      ++ "=" ++ extdir env]
            , build_args ++ ["--config", cfg env] )
      else .ok (ca, build_args)

/-- Python's `\S` character class complement: the whitespace characters
recognized by `re` in ASCII strings. -/
def isSpaceChar (c : Char) : Bool :=
  c = ' ' || c = '\t' || c = '\n' || c = '\r' || c = '\x0b' || c = '\x0c'

/-- The literal part of the regex `-arch (\S+)` as a character list. -/
def archPat : List Char := ['-', 'a', 'r', 'c', 'h', ' ']

/-- Split off the maximal leading run of non-whitespace characters
(greedy `\S*`): returns the run and the remainder. -/
def splitNonSpace : List Char → List Char × List Char
  | [] => ([], [])
  | c :: cs =>
    if isSpaceChar c then ([], c :: cs)
    else
      let p := splitNonSpace cs
      (c :: p.1, p.2)

/-- One attempted match of `-arch (\S+)` at the head of `l`: the literal
`-arch ` followed by a nonempty maximal `\S+` run.  On success, the
captured run and the number of characters the whole match consumes
beyond the first. -/
def archStep (l : List Char) : Option (List Char × Nat) :=
  if archPat.isPrefixOf l then
    match splitNonSpace (l.drop 6) with
    | ([], _) => none
    | (a :: r, _) => some (a :: r, 5 + (a :: r).length)
  else none

/-- Left-to-right non-overlapping scan of `re.findall(r"-arch (\S+)", s)`
(line 96 of `setup.py`).  The first argument counts characters of a
previous match still to be skipped; at skip `0`, a position either starts
a match (capture the value, skip past the match) or the scan advances one
character. -/
def findArchsGo : Nat → List Char → List String
  | _ + 1, [] => []
  | n + 1, _ :: cs => findArchsGo n cs
  | 0, [] => []
  | 0, c :: cs =>
    (archStep (c :: cs)).elim (findArchsGo 0 cs)
      (fun p => String.mk p.1 :: findArchsGo p.2 cs)

/-- `re.findall(r"-arch (\S+)", s)` over the characters of `s`. -/
def findArchs (l : List Char) : List String :=
  findArchsGo 0 l

/-- Line 93 of `setup.py`: the dict `{'True': True, 'False': False}`.
Indexing with any other key is a Python `KeyError` (`none`). -/
def useOmpTable : String → Option Bool
  | "True" => some true
  | "False" => some false
  | _ => none

/-- Lines 91–98: the Apple (`sys.platform.startswith("darwin")`) branch.
Resolve `USE_OMP` (default `'False'`) through `useOmpTable`; an
unrecognized value raises `KeyError`.  When it resolves to `False` the
source executes `cmake_wargs += ['-DUSE_OMP=No']`, but no variable
`cmake_wargs` is ever defined, so Python raises a `NameError` /
`UnboundLocalError`.  Then parse `ARCHFLAGS` and, if any `-arch` values
were found, append the `CMAKE_OSX_ARCHITECTURES` define listing them
joined by `";"`. -/
def darwinStep (env : BuildEnv) (cmake_args : List String) :
    Except BuildError (List String) :=
  if strStartsWith env.sysPlatform "darwin" then
    match useOmpTable (env.useOmpEnv.getD "False") with
    | none => .error (.keyError (env.useOmpEnv.getD "False"))
    | some b =>
      if !b then .error (.nameError "cmake_wargs")
      else
        let archs := findArchs env.archflags.data
        .ok (if archs.isEmpty then cmake_args
             else cmake_args ++
               ["-DCMAKE_OSX_ARCHITECTURES=" ++ String.intercalate ";" archs])
  else .ok cmake_args

/-- Lines 100–107: when `CMAKE_BUILD_PARALLEL_LEVEL` is not in the
environment and `self.parallel` is set and truthy, append `-j{parallel}`
to the build-phase arguments. -/
def parallelStep (env : BuildEnv) (build_args : List String) : List String :=
  if env.parallelLevelSet then build_args
  else
    match env.parallel with
    | some n => if n ≠ 0 then build_args ++ ["-j" ++ toString n] else build_args
    | none => build_args

/-- `CMakeBuild.build_extension` up to the two subprocess invocations
(lines 32–117): assemble the configure-phase argument list `cmake_args`
and the build-phase argument list `build_args`, or abort with the first
Python exception raised.  The two lists are exactly what lines 112–117
pass to `cmake <sourcedir> {cmake_args}` and `cmake --build . {build_args}`;
an exception escapes before either subprocess is launched. -/
def build_extension (env : BuildEnv) : Except BuildError (List String × List String) :=
  (compilerStep env (baseCmakeArgs env) []).bind fun p =>
    (darwinStep env p.1).bind fun ca =>
      .ok (ca, parallelStep env p.2)

/-! ## `GoogleTestCommand` (lines 119–146) -/

/-- The ambient inputs of a `GoogleTestCommand.run` call: whether the
interpreted (Python) suite passes, and the exit statuses of the two
native subprocesses. -/
structure TestEnv where
  /-- whether the interpreted suite run by `super().run()` succeeds -/
  pythonTestsOk : Bool
  /-- exit status of `make pyqubo_test` -/
  makeExit : Int
  /-- exit status of `./tests/pyqubo_test` -/
  testBinExit : Int
  deriving DecidableEq, Repr

/-- The three phases the test orchestrator can invoke, in source order. -/
inductive TestPhase where
  | pythonTests
  | nativeBuild
  | nativeRun
  deriving DecidableEq, Repr

/-- `GoogleTestCommand.run` (lines 137–146).  `super().run()` runs the
interpreted suite; setuptools' `test.run_tests` raises `DistutilsError`
when that suite fails, so a failure aborts `run` before the native
phases.  The two native phases are launched with `subprocess.call`,
which *returns* the subprocess exit status (`env.makeExit`,
`env.testBinExit`); the source discards both return values.  Result: the
phases invoked in order, and the outcome of `run` (`.error` = the
uncaught `DistutilsError`). -/
def googleTestRun (env : TestEnv) : List TestPhase × Except String Unit :=
  if env.pythonTestsOk then
    ([TestPhase.pythonTests, TestPhase.nativeBuild, TestPhase.nativeRun], .ok ())
  else
    ([TestPhase.pythonTests], .error "Test failed")

/-- Exit status of the `setup.py test` process: `distutils` catches an
uncaught `DistutilsError` from the command and exits with status 1;
otherwise the process exits with status 0. -/
def googleTestExit (env : TestEnv) : Nat :=
  match (googleTestRun env).2 with
  | .ok _ => 0
  | .error _ => 1

/-! ## `CMakeExtension` (lines 26–29) and `os.path.abspath` -/

/-- Python `str.split('/')` on character lists. -/
def splitSlash : List Char → List (List Char)
  | [] => [[]]
  | c :: cs =>
    if c = '/' then [] :: splitSlash cs
    else
      match splitSlash cs with
      | comp :: comps => (c :: comp) :: comps
      | [] => [[c]]

/-- Modelled from CPython `posixpath.normpath`: the number of slashes
preserved at the front of the result (`2` for exactly-double leading
slashes, else `1` when absolute, else `0`). -/
def initialSlashes (p : List Char) : Nat :=
  if ['/', '/'].isPrefixOf p ∧ ¬ ['/', '/', '/'].isPrefixOf p then 2
  else if ['/'].isPrefixOf p then 1
  else 0

/-- The component loop of `posixpath.normpath`: drop `''` and `'.'`
components, resolve `'..'` against the accumulated prefix (kept here in
reverse order, most recent first). -/
def normCompsGo (ini : Nat) : List (List Char) → List (List Char) → List (List Char)
  | revAcc, [] => revAcc.reverse
  | revAcc, comp :: comps =>
    if comp = [] ∨ comp = ['.'] then normCompsGo ini revAcc comps
    else if comp ≠ ['.', '.'] ∨ (ini = 0 ∧ revAcc = []) ∨ revAcc.head? = some ['.', '.'] then
      normCompsGo ini (comp :: revAcc) comps
    else
      match revAcc with
      | _ :: rest => normCompsGo ini rest comps
      | [] => normCompsGo ini [] comps

/-- Python `'/'.join(comps)` on character lists. -/
def joinSlash : List (List Char) → List Char
  | [] => []
  | [c] => c
  | c :: cs => c ++ '/' :: joinSlash cs

/-- Modelled from CPython `posixpath.normpath` (the host function behind
`os.path.abspath` on a POSIX host, not present in this repository). -/
def normpath (p : List Char) : List Char :=
  if p = [] then ['.']
  else
    let ini := initialSlashes p
    let out := List.replicate ini '/' ++ joinSlash (normCompsGo ini [] (splitSlash p))
    if out = [] then ['.'] else out

/-- Modelled from CPython `posixpath.join(a, b)` (two-argument case). -/
def joinPath (a b : List Char) : List Char :=
  if b.head? = some '/' then b
  else if a = [] ∨ a.getLast? = some '/' then a ++ b
  else a ++ '/' :: b

/-- Modelled from CPython `posixpath.abspath`: `os.path.abspath` on a
POSIX host whose current working directory is `cwd`. -/
def abspath (cwd p : List Char) : List Char :=
  if p.head? = some '/' then normpath p
  else normpath (joinPath cwd p)

/-- The fields of a `setuptools.Extension` relevant here: the name and
the source list handed to `Extension.__init__`. -/
structure PyExtension where
  name : String
  sources : List String
  deriving Repr

/-- A `CMakeExtension`: a `setuptools.Extension` plus the stored
`sourcedir` (a POSIX path, as a character list). -/
structure CMakeExtension extends PyExtension where
  sourcedir : List Char
  deriving Repr

/-- `CMakeExtension.__init__` (lines 27–29): call `Extension.__init__`
with `sources=[]`, store `os.path.abspath(sourcedir)`; the `sourcedir`
parameter defaults to the empty string.  `cwd` is the process's current
working directory consulted by `abspath`. -/
def CMakeExtension.init (cwd : List Char) (name : String)
    (sourcedir : List Char := []) : CMakeExtension :=
  { name := name, sources := [], sourcedir := abspath cwd sourcedir }

/-! ## Helper lemmas -/

theorem append_ne_short (p x t : String) (h : t.length < p.length) : p ++ x ≠ t := by
  intro he
  have hl := congrArg String.length he
  rw [String.length_append] at hl
  omega

theorem dashA_not_mem_base (env : BuildEnv) : "-A" ∉ baseCmakeArgs env := by
  intro h
  simp only [baseCmakeArgs, List.mem_cons, List.not_mem_nil, or_false] at h
  rcases h with h | h | h | h <;> exact append_ne_short _ _ _ (by decide) h.symm

/-- Any successful pass through the darwin branch leaves `cmake_args`
unchanged or appends exactly the `CMAKE_OSX_ARCHITECTURES` define. -/
theorem darwinStep_ok_shape (env : BuildEnv) (ca ca2 : List String)
    (h : darwinStep env ca = .ok ca2) :
    ca2 = ca ∨ ∃ s, ca2 = ca ++ ["-DCMAKE_OSX_ARCHITECTURES=" ++ s] := by
  unfold darwinStep at h
  split at h
  · split at h
    · exact absurd h (by simp)
    · split at h
      · exact absurd h (by simp)
      · simp only [Except.ok.injEq] at h
        subst h
        split
        · exact Or.inl rfl
        · exact Or.inr ⟨_, rfl⟩
  · simp only [Except.ok.injEq] at h
    exact Or.inl h.symm

/-- `parallelStep` leaves the build arguments unchanged or appends
exactly one trailing argument. -/
theorem parallelStep_shape (env : BuildEnv) (ba : List String) :
    parallelStep env ba = ba ∨ ∃ s, parallelStep env ba = ba ++ [s] := by
  unfold parallelStep
  split
  · exact Or.inl rfl
  · split
    · split
      · exact Or.inr ⟨_, rfl⟩
      · exact Or.inl rfl
    · exact Or.inl rfl

/-- Decompose a successful `build_extension` run through the outcome of
its compiler step. -/
theorem build_ok_components (env : BuildEnv) (ca1 ba1 ca ba : List String)
    (hcs : compilerStep env (baseCmakeArgs env) [] = .ok (ca1, ba1))
    (hok : build_extension env = .ok (ca, ba)) :
    (ca = ca1 ∨ ∃ s, ca = ca1 ++ ["-DCMAKE_OSX_ARCHITECTURES=" ++ s]) ∧
    ba = parallelStep env ba1 := by
  unfold build_extension at hok
  rw [hcs] at hok
  simp only [Except.bind] at hok
  cases hds : darwinStep env ca1 with
  | error e =>
    rw [hds] at hok
    exact absurd hok (by simp)
  | ok ca2 =>
    rw [hds] at hok
    simp only [Except.ok.injEq, Prod.mk.injEq] at hok
    obtain ⟨hca, hba⟩ := hok
    refine ⟨?_, hba.symm⟩
    rw [← hca]
    exact darwinStep_ok_shape env ca1 ca2 hds

theorem findArchsGo_skip (n : Nat) : ∀ l : List Char, findArchsGo n l = findArchsGo 0 (l.drop n) := by
  induction n with
  | zero => intro l; rw [List.drop_zero]
  | succ n ih =>
    intro l
    cases l with
    | nil => simp [findArchsGo, List.drop_nil]
    | cons c cs =>
      show findArchsGo n cs = _
      rw [ih cs, List.drop_succ_cons]

theorem splitNonSpace_eq (v suffix : List Char)
    (hns : ∀ c ∈ v, isSpaceChar c = false)
    (hs : suffix = [] ∨ ∃ t, suffix = ' ' :: t) :
    splitNonSpace (v ++ suffix) = (v, suffix) := by
  induction v with
  | nil =>
    rcases hs with rfl | ⟨t, rfl⟩
    · rfl
    · simp [splitNonSpace, isSpaceChar]
  | cons c cs ih =>
    have hc := hns c (List.mem_cons_self _ _)
    have hcs := fun d hd => hns d (List.mem_cons_of_mem _ hd)
    simp [splitNonSpace, hc, ih hcs]

theorem isPrefixOf_append_self (l t : List Char) : l.isPrefixOf (l ++ t) = true := by
  rw [List.isPrefixOf_iff_prefix]
  exact List.prefix_append l t

/-- At the head of a canonical token, `archStep` captures exactly the
value and consumes the whole `-arch <value>` match. -/
theorem archStep_token (v suffix : List Char) (hv : v ≠ [])
    (hns : ∀ c ∈ v, isSpaceChar c = false)
    (hs : suffix = [] ∨ ∃ t, suffix = ' ' :: t) :
    archStep (archPat ++ (v ++ suffix)) = some (v, 5 + v.length) := by
  obtain ⟨a, r, rfl⟩ : ∃ a r, v = a :: r := by
    cases v with
    | nil => exact absurd rfl hv
    | cons a r => exact ⟨a, r, rfl⟩
  have hsplit : splitNonSpace ((a :: r) ++ suffix) = (a :: r, suffix) :=
    splitNonSpace_eq _ _ hns hs
  unfold archStep
  rw [isPrefixOf_append_self]
  rw [show (6 : Nat) = archPat.length from rfl, List.drop_left, hsplit]
  simp

theorem archStep_space (l : List Char) : archStep (' ' :: l) = none := by
  unfold archStep
  rw [show archPat.isPrefixOf (' ' :: l) = false from rfl]
  simp

theorem findArchsGo_zero_cons (c : Char) (cs : List Char) :
    findArchsGo 0 (c :: cs) = (archStep (c :: cs)).elim (findArchsGo 0 cs)
      (fun p => String.mk p.1 :: findArchsGo p.2 cs) := rfl

theorem findArchs_cons_space (l : List Char) : findArchs (' ' :: l) = findArchs l := by
  show findArchsGo 0 (' ' :: l) = findArchsGo 0 l
  rw [findArchsGo_zero_cons, archStep_space]
  rfl

/-- One regex match: a `-arch ` token followed by a nonempty non-space
value, then either the end of the string or a space, contributes exactly
the captured value and the scan resumes after the match. -/
theorem findArchs_token (v suffix : List Char) (hv : v ≠ [])
    (hns : ∀ c ∈ v, isSpaceChar c = false)
    (hs : suffix = [] ∨ ∃ t, suffix = ' ' :: t) :
    findArchs (archPat ++ v ++ suffix) = String.mk v :: findArchs suffix := by
  have htok := archStep_token v suffix hv hns hs
  show findArchsGo 0 ('-' :: (['a', 'r', 'c', 'h', ' '] ++ (v ++ suffix)))
      = String.mk v :: findArchs suffix
  rw [findArchsGo_zero_cons,
    show ('-' :: (['a', 'r', 'c', 'h', ' '] ++ (v ++ suffix)))
      = archPat ++ (v ++ suffix) from rfl, htok]
  show String.mk v :: findArchsGo (5 + v.length) (['a', 'r', 'c', 'h', ' '] ++ (v ++ suffix))
      = String.mk v :: findArchs suffix
  rw [findArchsGo_skip, ← List.append_assoc,
    List.drop_left' (by simp [List.length_append]; omega)]
  rfl

/-- The canonical architecture-flags string holding exactly the `-arch`
tokens of `vs`, in order, separated by single spaces. -/
def canonArchFlags : List (List Char) → List Char
  | [] => []
  | v :: rest =>
    archPat ++ v ++ (match rest with
      | [] => []
      | _ :: _ => ' ' :: canonArchFlags rest)

theorem findArchs_canon (vs : List (List Char))
    (hv : ∀ v ∈ vs, v ≠ [] ∧ ∀ c ∈ v, isSpaceChar c = false) :
    findArchs (canonArchFlags vs) = vs.map String.mk := by
  induction vs with
  | nil => rfl
  | cons v rest ih =>
    have hv0 := hv v (List.mem_cons_self _ _)
    have hrest := fun w hw => hv w (List.mem_cons_of_mem _ hw)
    cases rest with
    | nil =>
      show findArchs (archPat ++ v ++ []) = [String.mk v]
      rw [findArchs_token v [] hv0.1 hv0.2 (Or.inl rfl)]
      rfl
    | cons w ws =>
      show findArchs (archPat ++ v ++ (' ' :: canonArchFlags (w :: ws)))
          = String.mk v :: (w :: ws).map String.mk
      rw [findArchs_token v _ hv0.1 hv0.2 (Or.inr ⟨_, rfl⟩),
        findArchs_cons_space, ih hrest]

theorem splitSlash_ne_nil (l : List Char) : splitSlash l ≠ [] := by
  induction l with
  | nil => simp [splitSlash]
  | cons c cs ih =>
    unfold splitSlash
    split
    · simp
    · cases h : splitSlash cs with
      | nil => exact absurd h ih
      | cons a as => simp

theorem splitSlash_append_slash (l : List Char) :
    splitSlash (l ++ ['/']) = splitSlash l ++ [[]] := by
  induction l with
  | nil => rfl
  | cons c cs ih =>
    simp only [List.cons_append]
    unfold splitSlash
    rw [ih]
    by_cases h : c = '/'
    · rw [if_pos h, if_pos h]
      rfl
    · rw [if_neg h, if_neg h]
      cases hs : splitSlash cs with
      | nil => exact absurd hs (splitSlash_ne_nil cs)
      | cons a as => simp

theorem normCompsGo_append_empty (ini : Nat) (comps : List (List Char)) :
    ∀ revAcc, normCompsGo ini revAcc (comps ++ [[]]) = normCompsGo ini revAcc comps := by
  induction comps with
  | nil =>
    intro revAcc
    rfl
  | cons comp comps ih =>
    intro revAcc
    simp only [List.cons_append]
    unfold normCompsGo
    split_ifs with h1 h2
    · exact ih revAcc
    · exact ih (comp :: revAcc)
    · cases revAcc with
      | nil => exact ih []
      | cons x rest => exact ih rest

theorem initialSlashes_append_slash (l : List Char)
    (hhead : l.head? = some '/') (hlast : l.getLast? ≠ some '/') :
    initialSlashes (l ++ ['/']) = initialSlashes l := by
  obtain ⟨c1, l1, rfl⟩ : ∃ c1 l1, l = c1 :: l1 := by
    cases l with
    | nil => simp at hhead
    | cons a as => exact ⟨a, as, rfl⟩
  have hc1 : c1 = '/' := by simpa using hhead
  subst hc1
  cases l1 with
  | nil => exact absurd rfl hlast
  | cons c2 l2 =>
    by_cases h2 : c2 = '/'
    · subst h2
      cases l2 with
      | nil => exact absurd rfl hlast
      | cons c3 l3 =>
        by_cases h3 : c3 = '/'
        · subst h3
          simp [initialSlashes, List.isPrefixOf]
        · have hb3 : ('/' == c3) = false :=
            beq_eq_false_iff_ne.mpr (fun he => h3 he.symm)
          simp [initialSlashes, List.isPrefixOf, hb3]
    · have hb2 : ('/' == c2) = false :=
        beq_eq_false_iff_ne.mpr (fun he => h2 he.symm)
      simp [initialSlashes, List.isPrefixOf, hb2]

theorem normpath_append_slash (l : List Char) (hhead : l.head? = some '/')
    (hlast : l.getLast? ≠ some '/') :
    normpath (l ++ ['/']) = normpath l := by
  have hne : l ≠ [] := by
    intro h
    rw [h] at hhead
    simp at hhead
  unfold normpath
  rw [if_neg (by simp), if_neg hne]
  simp only [initialSlashes_append_slash l hhead hlast, splitSlash_append_slash,
    normCompsGo_append_empty]

/-- `os.path.abspath('')` returns the (absolute, normalized) current
working directory. -/
theorem abspath_cwd_empty (cwd : List Char) (hhead : cwd.head? = some '/')
    (hnorm : normpath cwd = cwd) : abspath cwd [] = cwd := by
  unfold abspath joinPath
  rw [if_neg (by simp), if_neg (by simp)]
  by_cases hlast : cwd.getLast? = some '/'
  · rw [if_pos (Or.inr hlast), List.append_nil, hnorm]
  · have hne : ¬(cwd = [] ∨ cwd.getLast? = some '/') := by
      push_neg
      refine ⟨?_, hlast⟩
      intro h
      rw [h] at hhead
      simp at hhead
    rw [if_neg hne]
    rw [normpath_append_slash cwd hhead hlast, hnorm]

/-! ## Theorems -/

/-- C4: for every extension built, the computed output directory
(`extdir`) used in the emitted defines ends with the host path
separator, whether or not the raw path already ended with one. -/
theorem extdir_endsWith_sep (env : BuildEnv) :
    strEndsWithChar (extdir env) env.pathSep = true := by
  unfold extdir ensureSep strEndsWithChar
  by_cases h : env.extdirRaw.data.getLast? = some env.pathSep
  · simp [strEndsWithChar, h]
  · simp only [strEndsWithChar, h, if_false, decide_eq_true_eq]
    exact List.getLast?_concat _

/-- C3: the platform resolver maps exactly the four Windows platform
identifiers to their (non-empty) CMake architecture arguments; any other
identifier misses the dict, and when the mapping is consulted (MSVC
toolchain, generator containing none of `NMake`/`Ninja`/`ARM`/`Win64`)
that miss is a `KeyError` that aborts `build_extension` before any
subprocess is launched. -/
theorem plat_resolver_closed_set :
    (PLAT_TO_CMAKE "win32" = some "Win32" ∧ PLAT_TO_CMAKE "win-amd64" = some "x64" ∧
     PLAT_TO_CMAKE "win-arm32" = some "ARM" ∧ PLAT_TO_CMAKE "win-arm64" = some "ARM64" ∧
     (∀ p a, PLAT_TO_CMAKE p = some a → a ≠ "")) ∧
    (∀ p : String, p ≠ "win32" → p ≠ "win-amd64" → p ≠ "win-arm32" → p ≠ "win-arm64" →
      PLAT_TO_CMAKE p = none) ∧
    (∀ env : BuildEnv,
      env.compilerType = "msvc" →
      strContains env.cmakeGenerator "NMake" = false →
      strContains env.cmakeGenerator "Ninja" = false →
      strContains env.cmakeGenerator "ARM" = false →
      strContains env.cmakeGenerator "Win64" = false →
      PLAT_TO_CMAKE env.platName = none →
      build_extension env = .error (.keyError env.platName)) := by
  refine ⟨⟨rfl, rfl, rfl, rfl, ?_⟩, ?_, ?_⟩
  · intro p a h
    unfold PLAT_TO_CMAKE at h
    split at h <;> simp_all <;> subst h <;> decide
  · intro p h1 h2 h3 h4
    unfold PLAT_TO_CMAKE
    split <;> simp_all
  · intro env hc h1 h2 h3 h4 hp
    have hcomp : compilerStep env (baseCmakeArgs env) [] =
        .error (.keyError env.platName) := by
      unfold compilerStep
      simp [hc, h1, h2, h3, h4, hp, Except.bind]
    unfold build_extension
    rw [hcomp]
    rfl

/-- C8: on an Apple host the `USE_OMP` value (default `"False"`)
resolves through the two-literal dict — `"True"` to `True`, `"False"`
to `False` — and any other value raises `KeyError`, aborting
`build_extension` before any subprocess is launched. -/
theorem use_omp_resolution :
    (useOmpTable "True" = some true ∧ useOmpTable "False" = some false) ∧
    (∀ s : String, s ≠ "True" → s ≠ "False" → useOmpTable s = none) ∧
    (∀ env : BuildEnv, strStartsWith env.sysPlatform "darwin" = true →
      useOmpTable (env.useOmpEnv.getD "False") = none →
      ∀ r, build_extension env ≠ .ok r) := by
  refine ⟨⟨rfl, rfl⟩, ?_, ?_⟩
  · intro s h1 h2
    unfold useOmpTable
    split <;> simp_all
  · intro env hd hn r
    unfold build_extension
    cases hcs : compilerStep env (baseCmakeArgs env) [] with
    | error e => simp [Except.bind]
    | ok p =>
      have hds : darwinStep env p.1 =
          .error (.keyError (env.useOmpEnv.getD "False")) := by
        unfold darwinStep
        simp [hd, hn]
      simp [Except.bind, hds]

/-- C1 (code bug): on an Apple host with `USE_OMP` unset (so the
OpenMP flag resolves to `False`), line 94 executes
`cmake_wargs += ['-DUSE_OMP=No']`, but no variable `cmake_wargs`
exists, so `build_extension` aborts with a `NameError` instead of
appending `-DUSE_OMP=No` to the configure arguments. -/
theorem darwin_use_omp_default_name_error :
    build_extension
      { compilerType := "unix", cmakeGenerator := "", platName := "linux-x86_64",
        debug := false, sysPlatform := "darwin", useOmpEnv := none, archflags := "",
        parallelLevelSet := false, parallel := none, ninjaImportable := false,
        extdirRaw := "/build/lib/pyqubo", pathSep := '/',
        pyExecutable := "/usr/bin/python3", versionInfo := "1.4.0" } =
      .error (.nameError "cmake_wargs") := rfl

/-- C9: with no `CMAKE_BUILD_PARALLEL_LEVEL` in the environment and a
truthy `self.parallel`, the build-phase arguments gain `-j{n}`; with the
override present nothing is appended; and the configure-phase arguments
never depend on either input. -/
theorem parallel_level_override :
    (∀ (env : BuildEnv) (ba : List String) (n : Nat),
       env.parallelLevelSet = false → env.parallel = some n → n ≠ 0 →
       parallelStep env ba = ba ++ ["-j" ++ toString n]) ∧
    (∀ (env : BuildEnv) (ba : List String),
       env.parallelLevelSet = true → parallelStep env ba = ba) ∧
    (∀ (env : BuildEnv) (ls : Bool) (p : Option Nat),
       (build_extension env).map Prod.fst =
       (build_extension { env with parallelLevelSet := ls, parallel := p }).map Prod.fst) := by
  refine ⟨?_, ?_, ?_⟩
  · intro env ba n hset hpar hn
    simp [parallelStep, hset, hpar, hn]
  · intro env ba hset
    simp [parallelStep, hset]
  · intro env ls p
    have h1 : compilerStep { env with parallelLevelSet := ls, parallel := p }
        (baseCmakeArgs { env with parallelLevelSet := ls, parallel := p }) [] =
        compilerStep env (baseCmakeArgs env) [] := rfl
    have h2 : ∀ ca, darwinStep { env with parallelLevelSet := ls, parallel := p } ca =
        darwinStep env ca := fun _ => rfl
    unfold build_extension
    rw [h1]
    cases compilerStep env (baseCmakeArgs env) [] with
    | error e => rfl
    | ok pr =>
      simp only [Except.bind, h2]
      cases darwinStep env pr.1 <;> simp [Except.map]

/-- C9 witness: concrete instance of `parallel_level_override`. -/
theorem parallel_level_override_witness :
    parallelStep
      { compilerType := "unix", cmakeGenerator := "", platName := "linux-x86_64",
        debug := false, sysPlatform := "linux", useOmpEnv := none, archflags := "",
        parallelLevelSet := false, parallel := some 3, ninjaImportable := false,
        extdirRaw := "/b", pathSep := '/', pyExecutable := "py",
        versionInfo := "1.0" } ["--config", "Release"] =
    ["--config", "Release", "-j3"] :=
  parallel_level_override.1 _ ["--config", "Release"] 3 rfl rfl (by decide)

/-- C3 witness: `plat_resolver_closed_set` at a concrete MSVC build
with an unmapped platform identifier. -/
theorem plat_resolver_closed_set_witness :
    build_extension
      { compilerType := "msvc", cmakeGenerator := "", platName := "linux-x86_64",
        debug := false, sysPlatform := "win32", useOmpEnv := none, archflags := "",
        parallelLevelSet := false, parallel := none, ninjaImportable := false,
        extdirRaw := "C:\\out", pathSep := '\\', pyExecutable := "py",
        versionInfo := "1.0" } =
    .error (.keyError "linux-x86_64") :=
  plat_resolver_closed_set.2.2 _ rfl rfl rfl rfl rfl rfl

/-- C8 witness: `use_omp_resolution` at a concrete darwin build with the
unrecognized value `"TRUE"`. -/
theorem use_omp_resolution_witness :
    build_extension
      { compilerType := "unix", cmakeGenerator := "", platName := "linux-x86_64",
        debug := false, sysPlatform := "darwin", useOmpEnv := some "TRUE",
        archflags := "", parallelLevelSet := false, parallel := none,
        ninjaImportable := false, extdirRaw := "/b", pathSep := '/',
        pyExecutable := "py", versionInfo := "1.0" } ≠
    .ok ([], []) :=
  use_omp_resolution.2.2
    { compilerType := "unix", cmakeGenerator := "", platName := "linux-x86_64",
      debug := false, sysPlatform := "darwin", useOmpEnv := some "TRUE",
      archflags := "", parallelLevelSet := false, parallel := none,
      ninjaImportable := false, extdirRaw := "/b", pathSep := '/',
      pyExecutable := "py", versionInfo := "1.0" } rfl rfl ([], [])

/-- C5: on MSVC, a generator override containing `"Ninja"` or `"NMake"`
is classified single-config, and no `"-A"` architecture argument is ever
among the configure arguments, whatever the platform identifier. -/
theorem single_config_no_arch (env : BuildEnv) (ca ba : List String)
    (hc : env.compilerType = "msvc")
    (hg : strContains env.cmakeGenerator "Ninja" = true ∨
          strContains env.cmakeGenerator "NMake" = true)
    (hok : build_extension env = .ok (ca, ba)) :
    "-A" ∉ ca := by
  have hsc : (strContains env.cmakeGenerator "NMake" ||
              strContains env.cmakeGenerator "Ninja") = true := by
    rcases hg with h | h <;> simp [h]
  have hcs : compilerStep env (baseCmakeArgs env) [] = .ok (baseCmakeArgs env, []) := by
    unfold compilerStep
    simp [hc, hsc, Except.bind]
  obtain ⟨hshape, -⟩ := build_ok_components env (baseCmakeArgs env) [] ca ba hcs hok
  rcases hshape with h | ⟨s, h⟩ <;> subst h
  · exact dashA_not_mem_base env
  · intro hmem
    rcases List.mem_append.mp hmem with h | h
    · exact dashA_not_mem_base env h
    · simp only [List.mem_singleton] at h
      exact append_ne_short _ _ _ (by decide) h.symm

/-- C5 witness: `single_config_no_arch` at a concrete Ninja-override
MSVC build on a platform the resolver cannot map. -/
theorem single_config_no_arch_witness :
    "-A" ∉ (["-DCMAKE_LIBRARY_OUTPUT_DIRECTORY=C:\\out\\", "-DPYTHON_EXECUTABLE=py",
             "-DPYQUBO_VERSION_INFO=1.0", "-DCMAKE_BUILD_TYPE=Release"] : List String) :=
  single_config_no_arch
    { compilerType := "msvc", cmakeGenerator := "Ninja", platName := "linux-x86_64",
      debug := false, sysPlatform := "win32", useOmpEnv := none, archflags := "",
      parallelLevelSet := true, parallel := none, ninjaImportable := false,
      extdirRaw := "C:\\out", pathSep := '\\', pyExecutable := "py",
      versionInfo := "1.0" } _ _ rfl (Or.inl rfl) rfl

/-- C6: on MSVC with a multi-config generator and a debug build, the
configure arguments contain the per-configuration output-directory
define whose key ends in the upper-cased `DEBUG`, and the build-phase
arguments start with `--config Debug`. -/
theorem msvc_multiconfig_debug (env : BuildEnv) (ca ba : List String)
    (hc : env.compilerType = "msvc")
    (h1 : strContains env.cmakeGenerator "NMake" = false)
    (h2 : strContains env.cmakeGenerator "Ninja" = false)
    (hd : env.debug = true)
    (hok : build_extension env = .ok (ca, ba)) :
    ("-DCMAKE_LIBRARY_OUTPUT_DIRECTORY_DEBUG=" ++ extdir env) ∈ ca ∧
    ["--config", "Debug"] <+: ba := by
  have hcfg : cfg env = "Debug" := by simp [cfg, hd]
  have hkey : ∀ d : String,
      "-DCMAKE_LIBRARY_OUTPUT_DIRECTORY_" ++ (strUpper "Debug" ++ ("=" ++ d)) =
      "-DCMAKE_LIBRARY_OUTPUT_DIRECTORY_DEBUG=" ++ d := fun _ => rfl
  have hsc : (strContains env.cmakeGenerator "NMake" ||
              strContains env.cmakeGenerator "Ninja") = false := by
    simp [h1, h2]
  have hmain : ∃ ca1, compilerStep env (baseCmakeArgs env) [] =
      .ok (ca1 ++ ["-DCMAKE_LIBRARY_OUTPUT_DIRECTORY_DEBUG=" ++ extdir env],
           ["--config", "Debug"]) := by
    unfold compilerStep
    simp only [hc, ne_eq, not_true_eq_false, if_false, hsc, Bool.not_false,
      Bool.true_and, hcfg]
    by_cases hca : (strContains env.cmakeGenerator "ARM" ||
        strContains env.cmakeGenerator "Win64") = true
    · refine ⟨baseCmakeArgs env, ?_⟩
      simp [hca, Except.bind, hcfg]
      exact hkey (extdir env)
    · cases hplat : PLAT_TO_CMAKE env.platName with
      | none =>
        exfalso
        have : build_extension env = .error (.keyError env.platName) :=
          plat_resolver_closed_set.2.2 env hc h1 h2
            (by revert hca; cases strContains env.cmakeGenerator "ARM" <;> simp)
            (by revert hca; cases strContains env.cmakeGenerator "Win64" <;> simp)
            hplat
        rw [this] at hok
        exact absurd hok (by simp)
      | some arch =>
        refine ⟨baseCmakeArgs env ++ ["-A", arch], ?_⟩
        simp [Bool.not_eq_true] at hca
        simp [hca.1, hca.2, hplat, Except.bind, hcfg]
        exact hkey (extdir env)
  obtain ⟨ca1, hcs⟩ := hmain
  obtain ⟨hshape, hba⟩ := build_ok_components env _ _ ca ba hcs hok
  constructor
  · rcases hshape with h | ⟨s, h⟩ <;> subst h
    · exact List.mem_append.mpr (Or.inr (List.mem_singleton.mpr rfl))
    · exact List.mem_append.mpr
        (Or.inl (List.mem_append.mpr (Or.inr (List.mem_singleton.mpr rfl))))
  · subst hba
    rcases parallelStep_shape env ["--config", "Debug"] with h | ⟨s, h⟩ <;> rw [h] <;>
      first
        | exact List.prefix_rfl
        | exact List.prefix_append _ _

/-- C6 witness: `msvc_multiconfig_debug` at a concrete MSVC debug build
with the default (multi-config) generator. -/
theorem msvc_multiconfig_debug_witness :
    ("-DCMAKE_LIBRARY_OUTPUT_DIRECTORY_DEBUG=" ++
        extdir
          { compilerType := "msvc", cmakeGenerator := "", platName := "win32",
            debug := true, sysPlatform := "win32", useOmpEnv := none, archflags := "",
            parallelLevelSet := false, parallel := some 4, ninjaImportable := false,
            extdirRaw := "C:\\out", pathSep := '\\', pyExecutable := "py",
            versionInfo := "1.4.0" }) ∈
      (["-DCMAKE_LIBRARY_OUTPUT_DIRECTORY=C:\\out\\", "-DPYTHON_EXECUTABLE=py",
        "-DPYQUBO_VERSION_INFO=1.4.0", "-DCMAKE_BUILD_TYPE=Debug", "-A", "Win32",
        "-DCMAKE_LIBRARY_OUTPUT_DIRECTORY_DEBUG=C:\\out\\"] : List String) ∧
    ["--config", "Debug"] <+: (["--config", "Debug", "-j4"] : List String) :=
  msvc_multiconfig_debug
    { compilerType := "msvc", cmakeGenerator := "", platName := "win32",
      debug := true, sysPlatform := "win32", useOmpEnv := none, archflags := "",
      parallelLevelSet := false, parallel := some 4, ninjaImportable := false,
      extdirRaw := "C:\\out", pathSep := '\\', pyExecutable := "py",
      versionInfo := "1.4.0" } _ _ rfl rfl rfl rfl rfl

/-- C7: the `ARCHFLAGS` scan extracts exactly the `-arch` values, in
left-to-right order (hence exactly as many entries as tokens), and on an
Apple host (OpenMP enabled, so the darwin branch completes) a nonempty
extraction appends exactly one define joining the values with `";"`,
while an empty extraction appends nothing. -/
theorem archflags_parse_and_emit :
    (∀ vs : List (List Char),
      (∀ v ∈ vs, v ≠ [] ∧ ∀ c ∈ v, isSpaceChar c = false) →
      findArchs (canonArchFlags vs) = vs.map String.mk ∧
      (findArchs (canonArchFlags vs)).length = vs.length) ∧
    (∀ (env : BuildEnv) (ca : List String),
      strStartsWith env.sysPlatform "darwin" = true →
      env.useOmpEnv = some "True" →
      (findArchs env.archflags.data = [] → darwinStep env ca = .ok ca) ∧
      (findArchs env.archflags.data ≠ [] →
        darwinStep env ca = .ok (ca ++
          ["-DCMAKE_OSX_ARCHITECTURES=" ++
            String.intercalate ";" (findArchs env.archflags.data)]))) := by
  constructor
  · intro vs hv
    refine ⟨findArchs_canon vs hv, ?_⟩
    rw [findArchs_canon vs hv, List.length_map]
  · intro env ca hd homp
    constructor
    · intro hnil
      unfold darwinStep
      simp [hd, homp, useOmpTable, hnil]
    · intro hne
      unfold darwinStep
      simp [hd, homp, useOmpTable, List.isEmpty_iff, hne]

/-- C7 witness: `archflags_parse_and_emit` on the two-token canonical
string and on a concrete darwin build with
`ARCHFLAGS="-arch arm64 -arch x86_64"`. -/
theorem archflags_parse_and_emit_witness :
    findArchs (canonArchFlags ["arm64".data, "x86_64".data]) = ["arm64", "x86_64"] ∧
    darwinStep
      { compilerType := "unix", cmakeGenerator := "", platName := "linux-x86_64",
        debug := false, sysPlatform := "darwin", useOmpEnv := some "True",
        archflags := "-arch arm64 -arch x86_64", parallelLevelSet := false,
        parallel := none, ninjaImportable := false, extdirRaw := "/b",
        pathSep := '/', pyExecutable := "py", versionInfo := "1.0" }
      ["-DCMAKE_BUILD_TYPE=Release"] =
    .ok ["-DCMAKE_BUILD_TYPE=Release", "-DCMAKE_OSX_ARCHITECTURES=arm64;x86_64"] :=
  ⟨(archflags_parse_and_emit.1 ["arm64".data, "x86_64".data] (by decide)).1,
    (archflags_parse_and_emit.2
      { compilerType := "unix", cmakeGenerator := "", platName := "linux-x86_64",
        debug := false, sysPlatform := "darwin", useOmpEnv := some "True",
        archflags := "-arch arm64 -arch x86_64", parallelLevelSet := false,
        parallel := none, ninjaImportable := false, extdirRaw := "/b",
        pathSep := '/', pyExecutable := "py", versionInfo := "1.0" }
      ["-DCMAKE_BUILD_TYPE=Release"] rfl rfl).2 (by decide)⟩

/-- C2 counterexample: with a failing interpreted suite the native
phases are never attempted, and with a passing interpreted suite but a
failing native test binary (exit status 1) the process still exits 0 —
both halves of the claim fail on the code. -/
theorem googleTest_claim_false :
    (googleTestRun { pythonTestsOk := false, makeExit := 0, testBinExit := 0 }).1
        = [TestPhase.pythonTests] ∧
    ({ pythonTestsOk := true, makeExit := 0, testBinExit := 1 } : TestEnv).testBinExit ≠ 0 ∧
    googleTestExit { pythonTestsOk := true, makeExit := 0, testBinExit := 1 } = 0 :=
  ⟨rfl, by decide, rfl⟩

/-- C2 (amended): a failing interpreted-suite run raises out of `run`
before either native phase, making the process exit nonzero; when the
interpreted suite passes, both native phases are invoked but their exit
statuses are discarded (`subprocess.call`), so the process exits 0
regardless of the native outcomes. -/
theorem googleTest_run_actual (env : TestEnv) :
    (env.pythonTestsOk = false →
      (googleTestRun env).1 = [TestPhase.pythonTests] ∧ googleTestExit env = 1) ∧
    (env.pythonTestsOk = true →
      (googleTestRun env).1 =
        [TestPhase.pythonTests, TestPhase.nativeBuild, TestPhase.nativeRun] ∧
      googleTestExit env = 0) := by
  constructor <;> intro h <;> simp [googleTestRun, googleTestExit, h]

/-- C2 witness: `googleTest_run_actual` at a concrete failing suite. -/
theorem googleTest_run_actual_witness :
    (googleTestRun { pythonTestsOk := false, makeExit := 0, testBinExit := 0 }).1
        = [TestPhase.pythonTests] ∧
    googleTestExit { pythonTestsOk := false, makeExit := 0, testBinExit := 0 } = 1 :=
  (googleTest_run_actual { pythonTestsOk := false, makeExit := 0, testBinExit := 0 }).1 rfl

/-- C10: `CMakeExtension.__init__` hands the packaging tool an empty
source list, stores the absolute normalization (`os.path.abspath`) of
the `sourcedir` argument, and with the default empty-string argument the
stored `sourcedir` is the (absolute, normalized) current working
directory. -/
theorem cmake_extension_init (cwd : List Char) (name : String) (sd : List Char) :
    (CMakeExtension.init cwd name sd).sources = [] ∧
    (CMakeExtension.init cwd name sd).sourcedir = abspath cwd sd ∧
    (cwd.head? = some '/' → normpath cwd = cwd →
      (CMakeExtension.init cwd name).sourcedir = cwd) := by
  refine ⟨rfl, rfl, ?_⟩
  intro h1 h2
  exact abspath_cwd_empty cwd h1 h2

/-- C10 witness: `cmake_extension_init` at a concrete working directory
and source directory. -/
theorem cmake_extension_init_witness :
    (CMakeExtension.init "/work".data "pyqubo" "cpp_dimod".data).sources = [] ∧
    (CMakeExtension.init "/work".data "pyqubo" "cpp_dimod".data).sourcedir =
      abspath "/work".data "cpp_dimod".data ∧
    (CMakeExtension.init "/work".data "pyqubo").sourcedir = "/work".data :=
  ⟨(cmake_extension_init "/work".data "pyqubo" "cpp_dimod".data).1,
    (cmake_extension_init "/work".data "pyqubo" "cpp_dimod".data).2.1,
    (cmake_extension_init "/work".data "pyqubo" "cpp_dimod".data).2.2
      (by decide) (by decide)⟩

end Setup
